import Mathlib

/-!
Shallow embedding of the request-dispatch core of the zepto web framework
(`src/web/app.go`), together with proofs about its middleware composition,
panic/error recovery, session setup and lifecycle behaviour.

Go `error` values are identified by their message (the result of `Error()`),
request-level observable behaviour by traces of `Event`s.
-/

namespace Zepto

/-- A Go `error` value, identified by its message (`Error() string`). -/
structure GoError where
  msg : String
deriving DecidableEq, Repr

/-- A Go value recovered from a panic, as discriminated by the type switch in
`App.HandleMethod` (app.go lines 161-168): an `error`, a `string`, or any
other value carried together with its default textual form (`fmt.Sprint`). -/
inductive GoValue where
  | verr (e : GoError)
  | vstr (s : String)
  | vother (text : String)
deriving DecidableEq, Repr

/-- Model of Go `fmt.Sprintf` applied to a format string with NO operands,
as in `fmt.Errorf(t)` at app.go line 165 (the source never passes operands).
Restricted to format strings whose character after `%` is not a flag, width
or precision character, which covers every input used below. Go's behaviour:
`%%` prints `%`; a verb `%c` with no remaining operand prints
`%!c(MISSING)`; a `%` ending the string prints `%!(NOVERB)`. -/
def sprintfNoArgs : List Char → String
  | [] => ""
  | ['%'] => "%!(NOVERB)"
  | '%' :: '%' :: rest => "%" ++ sprintfNoArgs rest
  | '%' :: c :: rest => "%!" ++ String.mk [c] ++ "(MISSING)" ++ sprintfNoArgs rest
  | c :: rest => String.mk [c] ++ sprintfNoArgs rest

/-- Model of Go `fmt.Errorf` with no operands: formats the string and wraps
it in an error. -/
def fmtErrorf (format : String) : GoError :=
  ⟨sprintfNoArgs format.toList⟩

/-- Model of Go `fmt.Sprint` on a single recovered value: for a value that is
neither an `error` nor a `string` (the only case the source applies it to,
app.go line 167) it is the value's default textual form. -/
def fmtSprint : GoValue → String
  | .verr e => e.msg
  | .vstr s => s
  | .vother text => text

/-- The panic-value normalization performed by the deferred recover guard in
`App.HandleMethod` (app.go lines 160-168): an `error` passes through, a
`string` goes through `fmt.Errorf(t)`, any other value through
`fmt.Errorf(fmt.Sprint(t))`. -/
def normalizePanic : GoValue → GoError
  | .verr e => e
  | .vstr s => fmtErrorf s
  | .vother text => fmtErrorf (fmtSprint (.vother text))

/-! ## Requests, responses and observable events -/

/-- An inbound HTTP request (`*http.Request`), identified abstractly. -/
structure Request where
  id : Nat
deriving DecidableEq, Repr

/-- A response writer (`http.ResponseWriter`), identified abstractly. -/
structure ResponseWriter where
  id : Nat
deriving DecidableEq, Repr

/-- Observable events of one request's handling: status-line writes
(`res.WriteHeader`), the development diagnostic page
(`renderer.RenderDevelopmentError`), and abstract side effects performed by
handlers and middleware. -/
inductive Event where
  | writeHeader (status : Nat)
  | renderDevError (errMsg : String)
  | effect (tag : String)
deriving DecidableEq, Repr

/-- How one execution of a (possibly middleware-wrapped) handler terminates:
normal return of `nil`, normal return of a non-nil error, or a panic
carrying a Go value. -/
inductive HResult where
  | ok
  | err (e : GoError)
  | panicked (v : GoValue)
deriving DecidableEq, Repr

/-! ## Sessions, cookies and the per-request Context -/

/-- The underlying gorilla session object, identified abstractly. -/
structure GSession where
  id : Nat
deriving DecidableEq, Repr

/-- `web.Session`: wraps the gorilla session together with the current
request/response pair (fields set in `App.getSession`, app.go 127-131). -/
structure Session where
  gSession : GSession
  req : Request
  res : ResponseWriter
deriving DecidableEq, Repr

/-- `web.Cookies` as populated at app.go lines 151-154. -/
structure Cookies where
  res : ResponseWriter
  req : Request
deriving DecidableEq, Repr

/-- The per-request `web.Context` as populated by the dispatch closure
(app.go lines 146-156). Logger, broker and template engine are opaque
handles. The session field is an `Option` because in Go it is a pointer
(`*Session`); `none` models nil. -/
structure Context where
  logger : Nat
  broker : Nat
  res : ResponseWriter
  req : Request
  cookies : Cookies
  session : Option Session
  tmplEngine : Nat
deriving DecidableEq, Repr

/-! ## Handlers, middleware, routes and the App -/

/-- `web.RouteHandler`: a named handler consuming a Context. Its execution
yields the trace of its side effects and how it terminated. The name is the
route-group identifier middleware skip rules refer to. -/
structure RouteHandler where
  name : String
  run : Context → List Event × HResult

/-- `web.MiddlewareFunc`: a handler-to-handler transformation. -/
abbrev MiddlewareFunc := RouteHandler → RouteHandler

/-- Modelled from the spec: one entry of the `MiddlewareStack` (the
`MiddlewareStack` type is not under `src/`; app.go only constructs it with
`stack` and `skips` fields and calls its `Use` and `handle`). Per the spec,
each entry is a middleware "paired with an optional set of route identifiers
it must be skipped for". -/
structure MwEntry where
  mw : MiddlewareFunc
  skips : List String

/-- Modelled from the spec: the `MiddlewareStack` — the ordered list of
middleware entries (struct literal at app.go lines 87-90). -/
structure MiddlewareStack where
  stack : List MwEntry

/-- Modelled from the spec: `MiddlewareStack.Use` "appends one or more
middleware functions to the process-wide ordered list". -/
def MiddlewareStack.Use (ms : MiddlewareStack) (mws : List MwEntry) : MiddlewareStack :=
  ⟨ms.stack ++ mws⟩

/-- Modelled from the spec: `MiddlewareStack.handle` — "starting from the
terminal handler, each middleware wraps the handler produced by the previous
composition step, applied in reverse registration order so that the
first-registered middleware is the outermost wrapper"; "a middleware with a
skip rule matching the target route is omitted from that particular route's
composed chain". -/
def MiddlewareStack.handle (ms : MiddlewareStack) (terminal : RouteHandler) : RouteHandler :=
  (ms.stack.filter (fun e => ¬ terminal.name ∈ e.skips)).foldr (fun e h => e.mw h) terminal

/-- One registered route: a method set, a path pattern and the raw (not yet
middleware-wrapped) route handler, as stored by `muxRouter.HandleFunc` plus
`.Methods` in `App.HandleMethod`. -/
structure Route where
  methods : List String
  path : String
  handler : RouteHandler

/-- The application state relevant to route registration and dispatch:
environment name, middleware stack, route table, session store (its `Get`
method, modelled as a function from request and session name to the gorilla
session and an optional error) and the remaining opaque option fields. -/
structure App where
  env : String
  middleware : MiddlewareStack
  routes : List Route
  sessionStoreGet : Request → String → GSession × Option GoError
  sessionName : String
  logger : Nat
  broker : Nat
  tmplEngine : Nat

/-- `App.getSession` (app.go lines 125-132): calls the session store's `Get`,
discards its error with `session, _ := ...`, and wraps the resulting gorilla
session with the current request/response pair. The result is `some` because
the Go code returns the address of a struct literal, never nil. -/
def App.getSession (app : App) (res : ResponseWriter) (req : Request) : Option Session :=
  let r := app.sessionStoreGet req app.sessionName
  some { gSession := r.1, req := req, res := res }

/-- The Context constructed by the dispatch closure (app.go lines 146-156). -/
def App.mkContext (app : App) (res : ResponseWriter) (req : Request) : Context :=
  { logger := app.logger
    broker := app.broker
    res := res
    req := req
    cookies := { res := res, req := req }
    session := app.getSession res req
    tmplEngine := app.tmplEngine }

/-- `App.HandleError` (app.go lines 135-142): always writes status 500; in a
development environment it additionally renders the verbose diagnostic page;
in any other environment it writes nothing further. -/
def App.HandleError (app : App) (e : GoError) : List Event :=
  if app.env = "development" then
    [.writeHeader 500, .renderDevError e.msg]
  else
    [.writeHeader 500]

/-- The function `App.HandleMethod` registers with the mux router (the
closure at app.go lines 145-178), run against the application state current
at request time (the closure reads `app` through a pointer): build the
Context, compose the chain from the CURRENT middleware stack (line 172), run
it, and hand a returned non-nil error (line 176) or the normalized recovered
panic value (line 169) to `HandleError`. Returns the request's event
trace. -/
def App.dispatch (app : App) (routeHandler : RouteHandler)
    (res : ResponseWriter) (req : Request) : List Event :=
  let ctx := app.mkContext res req
  let h := app.middleware.handle routeHandler
  match h.run ctx with
  | (evs, .ok) => evs
  | (evs, .err e) => evs ++ app.HandleError e
  | (evs, .panicked v) => evs ++ app.HandleError (normalizePanic v)

/-- `App.HandleMethod` (app.go line 144-180) as route registration: appends
the (methods, path, handler) triple to the route table. The registered
closure itself is `App.dispatch`, evaluated against the app state at request
time. -/
def App.HandleMethod (app : App) (methods : List String) (path : String)
    (routeHandler : RouteHandler) : App :=
  { app with routes := app.routes ++ [⟨methods, path, routeHandler⟩] }

/-- `App.Get` (app.go 182-184). -/
def App.Get (app : App) (path : String) (h : RouteHandler) : App :=
  app.HandleMethod ["GET"] path h

/-- `App.Post` (app.go 186-188). -/
def App.Post (app : App) (path : String) (h : RouteHandler) : App :=
  app.HandleMethod ["POST"] path h

/-- `App.Put` (app.go 190-192). -/
def App.Put (app : App) (path : String) (h : RouteHandler) : App :=
  app.HandleMethod ["PUT"] path h

/-- `App.Delete` (app.go 194-196). -/
def App.Delete (app : App) (path : String) (h : RouteHandler) : App :=
  app.HandleMethod ["DELETE"] path h

/-- `App.Use` (app.go 206-208): delegates to the middleware stack's `Use`. -/
def App.Use (app : App) (mws : List MwEntry) : App :=
  { app with middleware := app.middleware.Use mws }

/-- Serving one request to the route at index `i` of the route table: the
mux router invokes the closure registered for that route, which executes
against the app state current at request time. -/
def App.serveRequest (app : App) (i : Nat) (res : ResponseWriter) (req : Request) :
    List Event :=
  match app.routes[i]? with
  | none => []
  | some route => app.dispatch route.handler res req

/-! ## Go `path.Clean` / `path.Join` and `App.Resource` -/

/-- Splits a character list at every `/` (the separators themselves are
dropped; adjacent separators yield empty segments, as Go's slash-indexed
scanning does). -/
def splitSlash : List Char → List (List Char)
  | [] => [[]]
  | '/' :: rest => [] :: splitSlash rest
  | c :: rest =>
    match splitSlash rest with
    | [] => [[c]]
    | s :: ss => (c :: s) :: ss

/-- Segment processing of Go `path.Clean`: drop empty and `.` segments, let
`..` pop the previous segment (kept literally at the start of a relative
path, dropped at the root of a rooted path). `out` holds the processed
segments in reverse. -/
def cleanSegments (rooted : Bool) : List (List Char) → List (List Char) → List (List Char)
  | out, [] => out.reverse
  | out, seg :: rest =>
    if seg = [] ∨ seg = ['.'] then cleanSegments rooted out rest
    else if seg = ['.', '.'] then
      match out with
      | [] =>
        if rooted then cleanSegments rooted [] rest
        else cleanSegments rooted [['.', '.']] rest
      | top :: outTail =>
        if top = ['.', '.'] then cleanSegments rooted (seg :: out) rest
        else cleanSegments rooted outTail rest
    else cleanSegments rooted (seg :: out) rest

/-- Joins segments with `/` separators. -/
def joinSlash : List (List Char) → List Char
  | [] => []
  | [s] => s
  | s :: rest => s ++ '/' :: joinSlash rest

/-- Model of Go `path.Clean`. -/
def pathClean (p : String) : String :=
  if p = "" then "."
  else
    let cs := p.toList
    let rooted := match cs with
      | '/' :: _ => true
      | _ => false
    let segs := cleanSegments rooted [] (splitSlash cs)
    let joined := (if rooted then ['/'] else []) ++ joinSlash segs
    if joined = [] then "." else String.mk joined

/-- Model of Go `path.Join` for two elements: joins the elements from the
first non-empty one with `/` and cleans the result (as `pathlib.Join` at
app.go line 211). -/
def pathJoin (a b : String) : String :=
  if a ≠ "" then pathClean (a ++ "/" ++ b)
  else if b ≠ "" then pathClean b
  else ""

/-- The `web.Resource` capability: five CRUD handlers. Field names follow the
Go interface. -/
structure Resource where
  List : RouteHandler
  Show : RouteHandler
  Create : RouteHandler
  Update : RouteHandler
  Destroy : RouteHandler

/-- `App.Resource` (app.go lines 210-218): computes `id_path` with
`path.Join(path, "/{id}")` and registers the five CRUD routes through
`Get`/`Get`/`Post`/`Put`/`Delete`. -/
def App.Resource (app : App) (path : String) (r : Resource) : App :=
  let id_path := pathJoin path "/{id}"
  ((((app.Get path r.List).Get id_path r.Show).Post path r.Create).Put
    id_path r.Update).Delete id_path r.Destroy

/-! ## Session setup and application lifecycle -/

/-- A session store as owned by the options: either a cookie store built
from a secret (`sessions.NewCookieStore([]byte(secret))`) or a
caller-supplied store. -/
inductive StoreVal where
  | cookieStore (secret : String)
  | custom (id : Nat)
deriving DecidableEq, Repr

/-- Outcome of running `App.setupSession`: either the logger's `Fatalf`
fired (which exits the process, so no store is established and the serving
state is never reached), or setup completed with a resulting store and the
list of warnings logged on the way. -/
structure SetupSessionResult where
  fatal : Option String
  warnings : List String
  store : Option StoreVal
deriving DecidableEq, Repr

/-- `App.setupSession` (app.go lines 51-65): with a store already supplied
nothing happens; otherwise the secret is read from the `SESSION_SECRET`
environment variable; if it is empty, a production environment is fatal, a
development environment warns and falls back to `"development-secret"`, and
any other environment falls through silently; finally a cookie store keyed
with the (possibly empty, possibly defaulted) secret is installed. -/
def setupSession (env : String) (sessionStore : Option StoreVal)
    (envSecret : String) : SetupSessionResult :=
  match sessionStore with
  | some s => { fatal := none, warnings := [], store := some s }
  | none =>
    if envSecret = "" then
      if env = "production" then
        { fatal := some "Missing a required environment variable: SESSION_SECRET"
          warnings := []
          store := none }
      else if env = "development" then
        { fatal := none
          warnings := ["You will need to setup a SESSION_SECRET in production mode."]
          store := some (.cookieStore "development-secret") }
      else
        { fatal := none, warnings := [], store := some (.cookieStore "") }
    else
      { fatal := none, warnings := [], store := some (.cookieStore envSecret) }

/-- The session-relevant outcome of `NewApp` (app.go lines 67-95): `NewApp`
unconditionally calls `app.setupSession()` as its last step before
returning, so a fatal `setupSession` prevents construction from completing
(the process exits inside `Fatalf`). -/
def NewAppSession (env : String) (sessionStore : Option StoreVal)
    (envSecret : String) : SetupSessionResult :=
  setupSession env sessionStore envSecret

/-- Startup-phase events: materializing one sub-router's routes
(`app.initRouterHandlers`, whose body is outside `src/` and is opaque
here), initializing the template engine, and initializing webpack. -/
inductive StartupEvent where
  | initRouter (id : Nat)
  | tmplEngineInit
  | webpackInit
deriving DecidableEq, Repr

/-- `App.Init` (app.go lines 97-107) over the startup-relevant state: calls
`initRouterHandlers` for every registered sub-router in order, then calls
the template engine's `Init` and panics with its error when that is
non-nil. Returns the startup event trace and the propagated panic, if
any. `routers` lists the registered sub-routers' identities; `tmplInitErr`
is the result of `tmplEngine.Init()`. -/
def InitApp (routers : List Nat) (tmplInitErr : Option GoError) :
    List StartupEvent × Option GoError :=
  let evs := routers.map StartupEvent.initRouter ++ [StartupEvent.tmplEngineInit]
  match tmplInitErr with
  | some e => (evs, some e)
  | none => (evs, none)

/-- `App.Start` (app.go lines 109-123): runs `Init` first; a panic escaping
`Init` propagates out of `Start` (nothing after line 110 runs, and the
process never reaches serving). On success, webpack is initialized when
enabled. -/
def StartApp (routers : List Nat) (tmplInitErr : Option GoError)
    (webpackEnabled : Bool) : List StartupEvent × Option GoError :=
  match InitApp routers tmplInitErr with
  | (evs, some e) => (evs, some e)
  | (evs, none) =>
    (evs ++ (if webpackEnabled then [StartupEvent.webpackInit] else []), none)

/-! ## Observation instruments and concrete fixtures -/

/-- The `pre` side effect of the `i`-th observation middleware. -/
def preEv (i : Nat) : Event :=
  .effect ("pre" ++ toString i)

/-- The `post` side effect of the `i`-th observation middleware. -/
def postEv (i : Nat) : Event :=
  .effect ("post" ++ toString i)

/-- An observation middleware: emits `pre i` before and `post i` after the
wrapped handler, except that a panic of the inner handler unwinds past the
post effect (as a Go panic would skip the rest of the middleware's body). -/
def logMw (i : Nat) : MiddlewareFunc := fun h =>
  { name := h.name
    run := fun ctx =>
      match h.run ctx with
      | (evs, .panicked v) => (preEv i :: evs, .panicked v)
      | (evs, r) => (preEv i :: (evs ++ [postEv i]), r) }

/-- A middleware-stack entry for `logMw i` with no skip rule. -/
def logEntry (i : Nat) : MwEntry :=
  ⟨logMw i, []⟩

/-- Counts the status-line writes (`WriteHeader` calls) in a trace. -/
def countWriteHeader : List Event → Nat
  | [] => 0
  | .writeHeader _ :: rest => 1 + countWriteHeader rest
  | _ :: rest => countWriteHeader rest

/-- The error a chain execution hands to `HandleError`, if any: a returned
non-nil error as is, a panic after normalization. -/
def failureError : HResult → Option GoError
  | .ok => none
  | .err e => some e
  | .panicked v => some (normalizePanic v)

/-- A concrete response writer. -/
def res0 : ResponseWriter := ⟨0⟩

/-- A concrete request. -/
def req0 : Request := ⟨0⟩

/-- A concrete application with an empty middleware stack and no routes. -/
def demoApp : App :=
  { env := "production"
    middleware := ⟨[]⟩
    routes := []
    sessionStoreGet := fun _ _ => (⟨0⟩, none)
    sessionName := "zsid"
    logger := 0
    broker := 0
    tmplEngine := 0 }

/-- A concrete context. -/
def ctx0 : Context :=
  demoApp.mkContext res0 req0

/-- A concrete handler that emits one effect and succeeds. -/
def demoHandler : RouteHandler :=
  ⟨"h", fun _ => ([.effect "h"], .ok)⟩

/-- A concrete handler that panics with the string `"kaboom"`. -/
def panicHandler : RouteHandler :=
  ⟨"p", fun _ => ([], .panicked (.vstr "kaboom"))⟩

/-- A concrete handler that returns the error `"kaboom"`. -/
def errHandler : RouteHandler :=
  ⟨"p", fun _ => ([], .err ⟨"kaboom"⟩)⟩

/-! ## Sanity checks -/

example : normalizePanic (.vstr "kaboom") = ⟨"kaboom"⟩ := by decide
example : normalizePanic (.vstr "a%d") = ⟨"a%!d(MISSING)"⟩ := by decide
example : pathClean "/widgets//{id}" = "/widgets/{id}" := by decide
example : pathClean "/a/b/../c" = "/a/c" := by decide
example : pathClean "a/" = "a" := by decide
example : pathClean "/" = "/" := by decide
example : pathJoin "/widgets" "/{id}" = "/widgets/{id}" := by decide

/-! ## Helper lemmas -/

/-- An observation middleware around a succeeding inner handler brackets the
inner trace with its pre and post effects. -/
theorem logMw_run_ok (i : Nat) (k : RouteHandler) (ctx : Context)
    (evs : List Event) (h : k.run ctx = (evs, .ok)) :
    (logMw i k).run ctx = (preEv i :: (evs ++ [postEv i]), .ok) := by
  simp [logMw, h]

/-- Running the nested-wrapper composition of observation middleware around a
succeeding terminal handler yields the standard pre/post bracket trace. -/
theorem foldr_logMw_run (ids : List Nat) (t : RouteHandler) (ctx : Context)
    (evs : List Event) (h : t.run ctx = (evs, .ok)) :
    (ids.foldr (fun i k => logMw i k) t).run ctx
      = (ids.map preEv ++ evs ++ ids.reverse.map postEv, .ok) := by
  induction ids with
  | nil => simpa using h
  | cons i ids ih =>
    simp only [List.foldr_cons]
    rw [logMw_run_ok i _ ctx _ ih]
    simp [List.append_assoc]

/-- On a stack whose entries carry no skip rules, `handle` is plain
nested-wrapper composition in reverse registration order: the
first-registered middleware is applied last, hence outermost. -/
theorem handle_noskip_entries (fs : List MiddlewareFunc) (t : RouteHandler) :
    (MiddlewareStack.mk (fs.map fun f => MwEntry.mk f [])).handle t
      = fs.foldr (fun f k => f k) t := by
  unfold MiddlewareStack.handle
  have hp : ((fun e => !decide (t.name ∈ e.skips)) ∘ fun f => MwEntry.mk f [])
      = fun _ : MiddlewareFunc => true := by
    funext f
    simp
  simp [List.filter_map, hp, List.foldr_map]

/-- Specialization of `handle_noskip_entries` to observation middleware. -/
theorem handle_logEntries (ids : List Nat) (t : RouteHandler) :
    (MiddlewareStack.mk (ids.map logEntry)).handle t
      = ids.foldr (fun i k => logMw i k) t := by
  have hm : ids.map logEntry = (ids.map logMw).map (fun f => MwEntry.mk f []) := by
    simp [List.map_map, logEntry, Function.comp]
  rw [hm, handle_noskip_entries, List.foldr_map]

/-- Traces with concatenated parts count their status-line writes
additively. -/
theorem countWriteHeader_append (a b : List Event) :
    countWriteHeader (a ++ b) = countWriteHeader a + countWriteHeader b := by
  induction a with
  | nil => simp [countWriteHeader]
  | cons x a ih =>
    cases x <;> simp [countWriteHeader, ih, Nat.add_assoc]

/-! ## Claims -/

/-- C1: when the composed chain for a route handler panics with value `v`
after emitting `evs`, the dispatch closure's recover guard normalizes `v`
and invokes `HandleError` with it, and the request's observable trace is
identical to that of an otherwise identical chain (same events) that
returns the normalized error instead of panicking. -/
theorem panic_and_error_dispatch_agree (app : App) (rh rh2 : RouteHandler)
    (res : ResponseWriter) (req : Request) (evs : List Event) (v : GoValue)
    (hp : (app.middleware.handle rh).run (app.mkContext res req) = (evs, .panicked v))
    (he : (app.middleware.handle rh2).run (app.mkContext res req)
            = (evs, .err (normalizePanic v))) :
    app.dispatch rh res req = evs ++ app.HandleError (normalizePanic v)
      ∧ app.dispatch rh res req = app.dispatch rh2 res req := by
  simp only [App.dispatch]
  rw [hp, he]
  exact ⟨rfl, rfl⟩

/-- Witness for C1: a handler panicking with the string `"kaboom"` produces
the same trace as one returning the error `"kaboom"`. -/
theorem panic_and_error_dispatch_agree_witness :
    demoApp.dispatch panicHandler res0 req0
        = [] ++ demoApp.HandleError (normalizePanic (.vstr "kaboom"))
      ∧ demoApp.dispatch panicHandler res0 req0 = demoApp.dispatch errHandler res0 req0 :=
  panic_and_error_dispatch_agree demoApp panicHandler errHandler res0 req0 [] (.vstr "kaboom")
    (by decide) (by decide)

/-- C2 counterexample: the composed chain for a route is NOT fixed at
wrap/registration time. A route registered on an empty middleware stack
serves the bare handler trace, but after a later `Use` the very same
registered route serves a trace wrapped by the new middleware: the closure
at app.go lines 145-178 calls `app.middleware.handle` (line 172) on each
request, against the stack current at request time. -/
theorem chain_fixed_at_registration_counterexample :
    (demoApp.Get "/r" demoHandler).serveRequest 0 res0 req0 = [.effect "h"]
      ∧ ((demoApp.Get "/r" demoHandler).Use [logEntry 1]).serveRequest 0 res0 req0
          = [preEv 1, .effect "h", postEv 1] := by
  decide

/-- C2 amended: the composed chain for a route is built inside the dispatch
closure on each request, from the middleware stack read at request time;
middleware registered after the route (hence skip-rule evaluation too)
still applies to it, and registering a route before or after `Use` yields
identical request behaviour. -/
theorem chain_composed_from_request_time_stack (app : App) (methods : List String)
    (path : String) (rh : RouteHandler) (mws : List MwEntry)
    (res : ResponseWriter) (req : Request) :
    ((app.HandleMethod methods path rh).Use mws).serveRequest app.routes.length res req
        = (app.Use mws).dispatch rh res req
      ∧ ((app.HandleMethod methods path rh).Use mws).serveRequest app.routes.length res req
        = ((app.Use mws).HandleMethod methods path rh).serveRequest
            app.routes.length res req := by
  refine ⟨?_, ?_⟩
  · simp only [App.serveRequest, App.HandleMethod, App.Use]
    rw [List.getElem?_concat_length]
    rfl
  · simp only [App.serveRequest, App.HandleMethod, App.Use]

/-- C3 evaluation at the failing input: the recover guard passes an `error`
value through unchanged, but a panicking `string` is wrapped with
`fmt.Errorf(t)`, which treats it as a format string, so a string containing
a `%` does not become the error's message verbatim. -/
theorem normalizePanic_percent_mangled :
    normalizePanic (.verr ⟨"boom"⟩) = ⟨"boom"⟩
      ∧ normalizePanic (.vstr "rate: 100%") = ⟨"rate: 100%!(NOVERB)"⟩
      ∧ (normalizePanic (.vstr "rate: 100%")).msg ≠ "rate: 100%"
      ∧ normalizePanic (.vstr "kaboom") = ⟨"kaboom"⟩
      ∧ normalizePanic (.vother "some value") = ⟨"some value"⟩ := by
  decide

/-- C4: middleware registered via `Use` with no skip rules compose in
reverse registration order — the first-registered middleware is the
outermost wrapper (first conjunct, for an arbitrary middleware sequence) —
so on a successful request the observed side-effect order is
`pre 1, …, pre n, handler, post n, …, post 1` (second conjunct, for the
observation middleware). -/
theorem use_middleware_nesting_order (fs : List MiddlewareFunc) (ids : List Nat)
    (t : RouteHandler) (ctx : Context) (evs : List Event)
    (h : t.run ctx = (evs, .ok)) :
    ((MiddlewareStack.mk []).Use (fs.map fun f => MwEntry.mk f [])).handle t
        = fs.foldr (fun f k => f k) t
      ∧ (((MiddlewareStack.mk []).Use (ids.map logEntry)).handle t).run ctx
        = (ids.map preEv ++ evs ++ ids.reverse.map postEv, .ok) := by
  have hU : ∀ l : List MwEntry, (MiddlewareStack.mk []).Use l = MiddlewareStack.mk l := by
    intro l
    simp [MiddlewareStack.Use]
  constructor
  · rw [hU, handle_noskip_entries]
  · rw [hU, handle_logEntries]
    exact foldr_logMw_run ids t ctx evs h

/-- Witness for C4: two middleware around a succeeding handler produce the
bracket order pre 1, pre 2, handler, post 2, post 1. -/
theorem use_middleware_nesting_order_witness :
    ((MiddlewareStack.mk []).Use ([logMw 1].map fun f => MwEntry.mk f [])).handle demoHandler
        = [logMw 1].foldr (fun f k => f k) demoHandler
      ∧ (((MiddlewareStack.mk []).Use ([1, 2].map logEntry)).handle demoHandler).run ctx0
        = ([1, 2].map preEv ++ [.effect "h"] ++ [1, 2].reverse.map postEv, .ok) :=
  use_middleware_nesting_order [logMw 1] [1, 2] demoHandler ctx0 [.effect "h"] (by decide)

/-- C5: whenever a chain execution fails (returned non-nil error, or panic
normalized to one), the dispatch closure appends exactly one `HandleError`
output after the handler's own events; `HandleError` writes status 500
exactly once, renders the diagnostic page only in a development
environment, and writes no diagnostic body otherwise. -/
theorem handle_error_single_500 (app : App) (rh : RouteHandler)
    (res : ResponseWriter) (req : Request) (evs : List Event) (r : HResult)
    (e : GoError)
    (hrun : (app.middleware.handle rh).run (app.mkContext res req) = (evs, r))
    (hfail : failureError r = some e) :
    app.dispatch rh res req = evs ++ app.HandleError e
      ∧ countWriteHeader (app.HandleError e) = 1
      ∧ countWriteHeader (app.dispatch rh res req) = countWriteHeader evs + 1
      ∧ (app.env = "development" →
          app.HandleError e = [.writeHeader 500, .renderDevError e.msg])
      ∧ (app.env ≠ "development" → app.HandleError e = [.writeHeader 500]) := by
  have hWH : countWriteHeader (app.HandleError e) = 1 := by
    unfold App.HandleError
    by_cases hd : app.env = "development" <;> simp [hd, countWriteHeader]
  have hdisp : app.dispatch rh res req = evs ++ app.HandleError e := by
    cases r with
    | ok => simp [failureError] at hfail
    | err e2 =>
      have h2 : e2 = e := by simpa [failureError] using hfail
      subst h2
      simp only [App.dispatch]
      rw [hrun]
    | panicked v =>
      have h2 : normalizePanic v = e := by simpa [failureError] using hfail
      subst h2
      simp only [App.dispatch]
      rw [hrun]
  refine ⟨hdisp, hWH, ?_, ?_, ?_⟩
  · rw [hdisp, countWriteHeader_append, hWH]
  · intro hd
    simp [App.HandleError, hd]
  · intro hd
    simp [App.HandleError, hd]

/-- Witness for C5: a handler returning the error `"kaboom"` in a
production-environment app yields exactly one status-500 write and no
diagnostic body. -/
theorem handle_error_single_500_witness :
    demoApp.dispatch errHandler res0 req0 = [] ++ demoApp.HandleError ⟨"kaboom"⟩
      ∧ countWriteHeader (demoApp.HandleError ⟨"kaboom"⟩) = 1
      ∧ countWriteHeader (demoApp.dispatch errHandler res0 req0) = countWriteHeader [] + 1
      ∧ (demoApp.env = "development" →
          demoApp.HandleError ⟨"kaboom"⟩ = [.writeHeader 500, .renderDevError "kaboom"])
      ∧ (demoApp.env ≠ "development" → demoApp.HandleError ⟨"kaboom"⟩ = [.writeHeader 500]) :=
  handle_error_single_500 demoApp errHandler res0 req0 [] (.err ⟨"kaboom"⟩) ⟨"kaboom"⟩
    (by decide) (by decide)

/-- C6: constructing the application with no session store in a production
environment with `SESSION_SECRET` unset fires the logger's fatal exit
before any store is established (the serving state is never reached); the
same configuration in a development environment succeeds, logs the warning,
and falls back to the fixed secret `"development-secret"`. -/
theorem session_secret_env_behaviour :
    (NewAppSession "production" none "").fatal
        = some "Missing a required environment variable: SESSION_SECRET"
      ∧ (NewAppSession "production" none "").store = none
      ∧ NewAppSession "development" none ""
        = { fatal := none
            warnings := ["You will need to setup a SESSION_SECRET in production mode."]
            store := some (.cookieStore "development-secret") } := by
  decide

/-- C7: `Resource(p, r)` appends exactly the five CRUD routes — GET `p` to
`List`, GET on the `{id}` sub-path to `Show`, POST `p` to `Create`, PUT on
the `{id}` sub-path to `Update`, DELETE on the `{id}` sub-path to
`Destroy` — leaving every previously registered route and the rest of the
application untouched, so distinct registrations cannot interfere. -/
theorem resource_registers_five_routes (app : App) (p : String) (r : Resource) :
    (app.Resource p r).routes
        = app.routes
          ++ [⟨["GET"], p, r.List⟩,
              ⟨["GET"], pathJoin p "/{id}", r.Show⟩,
              ⟨["POST"], p, r.Create⟩,
              ⟨["PUT"], pathJoin p "/{id}", r.Update⟩,
              ⟨["DELETE"], pathJoin p "/{id}", r.Destroy⟩]
      ∧ (app.Resource p r).routes.length = app.routes.length + 5
      ∧ (app.Resource p r).middleware = app.middleware
      ∧ (app.Resource p r).env = app.env := by
  refine ⟨?_, ?_, rfl, rfl⟩ <;>
    simp [App.Resource, App.Get, App.Post, App.Put, App.Delete, App.HandleMethod]

/-- C8: `Init` materializes every registered sub-router's routes before the
template engine is initialized (the template-engine step is the last
startup event), and a non-nil template-engine error is propagated as a
panic, so `Start` performs nothing further and the process never reaches
serving. -/
theorem init_order_and_fatal_tmpl (routers : List Nat) (e : GoError)
    (tmplErr : Option GoError) (wp : Bool) :
    (InitApp routers tmplErr).1
        = routers.map StartupEvent.initRouter ++ [StartupEvent.tmplEngineInit]
      ∧ (InitApp routers (some e)).2 = some e
      ∧ StartApp routers (some e) wp
        = (routers.map StartupEvent.initRouter ++ [StartupEvent.tmplEngineInit], some e) := by
  refine ⟨?_, ?_, ?_⟩
  · cases tmplErr <;> simp [InitApp]
  · simp [InitApp]
  · simp [StartApp, InitApp]

/-- C9: with no store supplied, an empty `SESSION_SECRET` and an
environment that is neither `"production"` nor `"development"`,
`setupSession` neither exits fatally nor warns, and silently installs a
cookie store keyed with the empty secret. -/
theorem staging_empty_secret_silent :
    NewAppSession "staging" none ""
      = { fatal := none, warnings := [], store := some (.cookieStore "") } := by
  decide

/-- C10: the per-request context always carries a non-nil session wrapping
whatever gorilla session the store's `Get` produced together with the
current request/response pair, and the error component of the store's
result is discarded: two stores producing the same sessions but different
errors yield identical contexts, so a retrieval failure never affects
request handling. -/
theorem getSession_total_and_error_independent (app : App) (res : ResponseWriter)
    (req : Request) (g : Request → String → GSession)
    (e1 e2 : Request → String → Option GoError) :
    (app.mkContext res req).session
        = some { gSession := (app.sessionStoreGet req app.sessionName).1
                 req := req
                 res := res }
      ∧ ({ app with sessionStoreGet := fun q n => (g q n, e1 q n) } : App).mkContext res req
        = ({ app with sessionStoreGet := fun q n => (g q n, e2 q n) } : App).mkContext res req :=
  ⟨rfl, rfl⟩

end Zepto
